import Mathlib

/-!
Verification of the MatBrief data-access gateways (auth service and article
service) against their specification.  The TypeScript services are shallowly
embedded: backend collaborators become explicit arguments returning
`Except String _` (an `Except.error m` models the backend call throwing an
exception with message `m`), the `{ data, error }` result objects become
records with two `Option` fields, and the at-most-one backend call each
operation makes is returned as an explicit call list.
-/

/-! ### String primitives

The services use JavaScript `String.prototype.toLowerCase`, `trim`,
`includes` and `length`.  They are modelled here on the `List Char`
view of `String`; `lowerChar` covers the ASCII range, which is the domain
of every message the services inspect. -/

/-- ASCII lower-casing of one character (JS `toLowerCase` on the ASCII range). -/
def lowerChar (c : Char) : Char :=
  if 'A' ≤ c && c ≤ 'Z' then Char.ofNat (c.toNat + 32) else c

/-- Lower-case a string character-wise. -/
def strLower (s : String) : String :=
  ⟨s.data.map lowerChar⟩

/-- JS whitespace characters relevant to `trim`. -/
def isWhite (c : Char) : Bool :=
  c == ' ' || c == '\t' || c == '\n' || c == '\r'

/-- Remove surrounding whitespace (JS `trim`). -/
def strTrim (s : String) : String :=
  ⟨((s.data.dropWhile isWhite).reverse.dropWhile isWhite).reverse⟩

/-- `startsWithList needle hay`: does `hay` start with `needle`? -/
def startsWithList : List Char → List Char → Bool
  | [], _ => true
  | _ :: _, [] => false
  | a :: as, b :: bs => a == b && startsWithList as bs

/-- `occursIn needle hay`: does `needle` occur contiguously in `hay`? -/
def occursIn : List Char → List Char → Bool
  | needle, [] => needle.isEmpty
  | needle, c :: rest => startsWithList needle (c :: rest) || occursIn needle rest

/-- JS `s.includes(sub)`: substring containment. -/
def strIncludes (s sub : String) : Bool :=
  occursIn sub.data s.data

/-! ### Auth data model (src/services/auth.ts) -/

/-- The closed auth error taxonomy (`AuthErrorCode`). -/
inductive AuthErrorCode where
  | invalid_email
  | invalid_password
  | email_taken
  | user_not_found
  | wrong_password
  | too_many_requests
  | network_error
  | unknown_error
deriving DecidableEq, Repr

/-- Normalized auth error (`AuthError`): a code plus a fixed user-facing message. -/
structure AuthError where
  code : AuthErrorCode
  message : String
deriving DecidableEq, Repr

/-- A raw backend auth error object `{ message: string, status?: number }`. -/
structure BackendError where
  message : String
  status : Option Nat := none
deriving DecidableEq, Repr

/-- The `{ data, error }` result object returned by every auth operation
(`AuthResult<T>`).  The TS tagged union is embedded as the runtime object
shape: two slots, each possibly null. -/
structure AuthResult (T : Type) where
  data : Option T
  error : Option AuthError
deriving DecidableEq, Repr

/-- Opaque authenticated user record, passed through unchanged. -/
structure User where
  id : String
deriving DecidableEq, Repr

/-- Invalid-email phrases ("Email validation errors" group of the source). -/
def authEmailPhrase (msg : String) : Bool :=
  strIncludes msg "invalid email" || strIncludes msg "valid email"

/-- Password-length/strength phrases ("Password validation errors" group). -/
def authPasswordPhrase (msg : String) : Bool :=
  strIncludes msg "password" &&
    (strIncludes msg "least" || strIncludes msg "short" || strIncludes msg "weak")

/-- Already-registered/duplicate phrases ("Email already registered" group). -/
def authTakenPhrase (msg : String) : Bool :=
  strIncludes msg "already registered" || strIncludes msg "already exists" ||
    strIncludes msg "duplicate"

/-- User-not-found phrases. -/
def authMissingUserPhrase (msg : String) : Bool :=
  strIncludes msg "user not found" || strIncludes msg "no user"

/-- Invalid-credentials phrases. -/
def authBadCredsPhrase (msg : String) : Bool :=
  strIncludes msg "invalid login" || strIncludes msg "invalid credentials" ||
    strIncludes msg "wrong password"

/-- Rate-limit phrases, or HTTP status 429 ("Rate limiting" group). -/
def authRateCond (error : BackendError) : Bool :=
  strIncludes (strLower error.message) "rate limit" ||
    strIncludes (strLower error.message) "too many" || error.status == some 429

/-- Network/fetch/connection phrases. -/
def authNetworkPhrase (msg : String) : Bool :=
  strIncludes msg "network" || strIncludes msg "fetch" || strIncludes msg "connection"

/-- `normalizeAuthError` from src/services/auth.ts: ordered, case-insensitive
substring matching of the raw backend message (plus the 429 status check)
into the closed taxonomy, with a fixed message per code. -/
def normalizeAuthError (error : BackendError) : AuthError :=
  let msg := strLower error.message
  if authEmailPhrase msg then
    ⟨.invalid_email, "Please enter a valid email address."⟩
  else if authPasswordPhrase msg then
    ⟨.invalid_password, "Password must be at least 6 characters long."⟩
  else if authTakenPhrase msg then
    ⟨.email_taken, "An account with this email already exists."⟩
  else if authMissingUserPhrase msg then
    ⟨.user_not_found, "No account found with this email."⟩
  else if authBadCredsPhrase msg then
    ⟨.wrong_password, "Incorrect email or password."⟩
  else if authRateCond error then
    ⟨.too_many_requests, "Too many attempts. Please wait a moment and try again."⟩
  else if authNetworkPhrase msg then
    ⟨.network_error, "Unable to connect. Please check your internet connection."⟩
  else
    ⟨.unknown_error, "Something went wrong. Please try again."⟩

/-! ### Article data model (src/services/articles.ts) -/

/-- The closed article error taxonomy (`ArticleErrorCode`). -/
inductive ArticleErrorCode where
  | not_found
  | permission_denied
  | network_error
  | unknown_error
deriving DecidableEq, Repr

/-- Normalized article error (`ArticleError`). -/
structure ArticleError where
  code : ArticleErrorCode
  message : String
deriving DecidableEq, Repr

/-- A raw backend database error object `{ message: string, code?: string }`. -/
structure DbError where
  message : String
  code : Option String := none
deriving DecidableEq, Repr

/-- The `{ data, error }` result object returned by article operations
(`ArticleResult<T>`). -/
structure ArticleResult (T : Type) where
  data : Option T
  error : Option ArticleError
deriving DecidableEq, Repr

/-- Permission-denied/RLS phrases or backend codes ("Permission/RLS errors"
group): the message phrases, Postgres code 42501, or PostgREST code PGRST301
(codes compared after lower-casing). -/
def artPermissionCond (error : DbError) : Bool :=
  strIncludes (strLower error.message) "permission denied" ||
    strIncludes (strLower error.message) "row-level security" ||
    strLower (error.code.getD "") == "42501" ||
    strLower (error.code.getD "") == "pgrst301"

/-- Not-found phrases or the PostgREST no-rows code PGRST116. -/
def artMissingCond (error : DbError) : Bool :=
  strIncludes (strLower error.message) "not found" ||
    strLower (error.code.getD "") == "pgrst116"

/-- Network/fetch/connection/timeout phrases. -/
def artNetworkPhrase (msg : String) : Bool :=
  strIncludes msg "network" || strIncludes msg "fetch" ||
    strIncludes msg "connection" || strIncludes msg "timeout"

/-- `normalizeArticleError` from src/services/articles.ts. -/
def normalizeArticleError (error : DbError) : ArticleError :=
  if artPermissionCond error then
    ⟨.permission_denied, "You do not have permission to view these articles."⟩
  else if artMissingCond error then
    ⟨.not_found, "Article not found."⟩
  else if artNetworkPhrase (strLower error.message) then
    ⟨.network_error, "Unable to load articles. Please check your internet connection."⟩
  else
    ⟨.unknown_error, "Unable to load articles. Please try again."⟩

/-! ### Auth gateway operations

Each operation takes its backend collaborator as an argument.  A collaborator
returns `Except String R`: `Except.ok` is the backend resolving with a
response object, `Except.error m` is the backend call itself throwing an
exception with message `m`.  An operation's own outcome is likewise an
`Except String (AuthResult _)`; `Except.error` there means the operation
raised to its caller (the source has no try/catch around the awaits).
`signUp`/`signIn` additionally return the list of calls made to the backend
collaborator (the source makes at most one). -/

/-- The `{ email, password }` argument object sent to the backend auth API. -/
structure Credentials where
  email : String
  password : String
deriving DecidableEq, Repr

/-- Backend response of `supabase.auth.signUp` / `signInWithPassword`:
`{ data: { user, session }, error }` (the session is never inspected). -/
structure AuthApiResponse where
  user : Option User
  error : Option BackendError
deriving DecidableEq, Repr

/-- The success payload `{ user }` of `signUp`/`signIn`. -/
structure UserData where
  user : User
deriving DecidableEq, Repr

/-- `signUp` from src/services/auth.ts. -/
def signUp (backend : Credentials → Except String AuthApiResponse)
    (email password : String) :
    Except String (AuthResult UserData) × List Credentials :=
  if email == "" || !(strIncludes email "@") then
    (.ok ⟨none, some ⟨.invalid_email, "Please enter a valid email address."⟩⟩, [])
  else if password == "" || password.length < 6 then
    (.ok ⟨none, some ⟨.invalid_password, "Password must be at least 6 characters long."⟩⟩, [])
  else
    let creds : Credentials := ⟨strLower (strTrim email), password⟩
    match backend creds with
    | .error m => (.error m, [creds])
    | .ok resp =>
      match resp.error with
      | some err => (.ok ⟨none, some (normalizeAuthError err)⟩, [creds])
      | none =>
        match resp.user with
        | none =>
          (.ok ⟨none, some ⟨.unknown_error, "Account created but user data unavailable."⟩⟩,
            [creds])
        | some u => (.ok ⟨some ⟨u⟩, none⟩, [creds])

/-- `signIn` from src/services/auth.ts. -/
def signIn (backend : Credentials → Except String AuthApiResponse)
    (email password : String) :
    Except String (AuthResult UserData) × List Credentials :=
  if email == "" || !(strIncludes email "@") then
    (.ok ⟨none, some ⟨.invalid_email, "Please enter a valid email address."⟩⟩, [])
  else if password == "" then
    (.ok ⟨none, some ⟨.invalid_password, "Please enter your password."⟩⟩, [])
  else
    let creds : Credentials := ⟨strLower (strTrim email), password⟩
    match backend creds with
    | .error m => (.error m, [creds])
    | .ok resp =>
      match resp.error with
      | some err => (.ok ⟨none, some (normalizeAuthError err)⟩, [creds])
      | none =>
        match resp.user with
        | none =>
          (.ok ⟨none, some ⟨.unknown_error, "Sign in succeeded but user data unavailable."⟩⟩,
            [creds])
        | some u => (.ok ⟨some ⟨u⟩, none⟩, [creds])

/-- Backend response of `supabase.auth.signOut`: `{ error }`. -/
structure SignOutApiResponse where
  error : Option BackendError
deriving DecidableEq, Repr

/-- `signOut` from src/services/auth.ts.  Its declared success payload type is
TS `null`, a unit type; the success object `{ data: null, error: null }`
carries that payload, embedded as `some ()`. -/
def signOut (backend : Except String SignOutApiResponse) :
    Except String (AuthResult Unit) :=
  match backend with
  | .error m => .error m
  | .ok resp =>
    match resp.error with
    | some err => .ok ⟨none, some (normalizeAuthError err)⟩
    | none => .ok ⟨some (), none⟩

/-- Backend response of `supabase.auth.getUser`: `{ data: { user }, error }`. -/
structure GetUserApiResponse where
  user : Option User
  error : Option BackendError
deriving DecidableEq, Repr

/-- The success payload `{ user: User | null }` of `getCurrentUser`. -/
structure CurrentUser where
  user : Option User
deriving DecidableEq, Repr

/-- `getCurrentUser` from src/services/auth.ts. -/
def getCurrentUser (backend : Except String GetUserApiResponse) :
    Except String (AuthResult CurrentUser) :=
  match backend with
  | .error m => .error m
  | .ok resp =>
    match resp.error with
    | some err =>
      if strIncludes (strLower err.message) "session" ||
          strIncludes (strLower err.message) "not authenticated" then
        .ok ⟨some ⟨none⟩, none⟩
      else
        .ok ⟨none, some (normalizeAuthError err)⟩
    | none => .ok ⟨some ⟨resp.user⟩, none⟩

/-! ### Article gateway operations -/

/-- One raw database row as selected by the articles query. -/
structure ArticleRow where
  id : String
  title : String
  summary : String
  tags : Option (List String)
  external_url : String
  created_at : String
deriving DecidableEq, Repr

/-- The application-facing `Article` shape. -/
structure Article where
  id : String
  title : String
  summary : String
  tags : List String
  externalUrl : String
  createdAt : String
deriving DecidableEq, Repr

/-- The query the article gateway issues:
`supabase.from(table).select(sel).order(orderBy, { ascending })`. -/
structure ArticlesQuery where
  table : String
  sel : String
  orderBy : String
  ascending : Bool
deriving DecidableEq, Repr

/-- The fixed query built inside `fetchArticles`. -/
def articlesQuery : ArticlesQuery :=
  ⟨"articles", "id, title, summary, tags, external_url, created_at", "created_at", false⟩

/-- Backend response of the articles query: `{ data, error }`. -/
structure DbResponse where
  data : Option (List ArticleRow)
  error : Option DbError
deriving DecidableEq, Repr

/-- The row-to-`Article` mapping performed by `fetchArticles`
(snake_case to camelCase, `tags ?? []`). -/
def mapRow (row : ArticleRow) : Article :=
  ⟨row.id, row.title, row.summary, row.tags.getD [], row.external_url, row.created_at⟩

/-- `fetchArticles` from src/services/articles.ts. -/
def fetchArticles (backend : ArticlesQuery → Except String DbResponse) :
    Except String (ArticleResult (List Article)) :=
  match backend articlesQuery with
  | .error m => .error m
  | .ok r =>
    match r.error with
    | some err => .ok ⟨none, some (normalizeArticleError err)⟩
    | none => .ok ⟨some ((r.data.getD []).map mapRow), none⟩

/-- Modelled from the spec: the implementation of `fetchArticleById` is absent
from the repository sources (only its caller `ArticleScreen` and its test
doubles appear).  Spec §4.2: "A companion operation,
`fetchArticleById(id) -> Result<Article, ArticleError>`, applies the same
mapping/error rules to a single-row lookup and additionally surfaces
`not_found` when zero rows match."  The backend collaborator here is the
single-row lookup, receiving the id and returning the matching rows. -/
def fetchArticleById (backend : String → Except String DbResponse) (id : String) :
    Except String (ArticleResult Article) :=
  match backend id with
  | .error m => .error m
  | .ok r =>
    match r.error with
    | some err => .ok ⟨none, some (normalizeArticleError err)⟩
    | none =>
      match r.data.getD [] with
      | [] => .ok ⟨none, some ⟨.not_found, "Article not found."⟩⟩
      | row :: _ => .ok ⟨some (mapRow row), none⟩

/-! ### Shared notions used by the statements -/

/-- Exactly one of the two result slots is populated. -/
def exactlyOne {T E : Type} (d : Option T) (e : Option E) : Prop :=
  (d ≠ none ∧ e = none) ∨ (d = none ∧ e ≠ none)

/-- An `Except` outcome that returned a value (did not throw). -/
def exceptOk {ε α : Type} : Except ε α → Bool
  | .ok _ => true
  | .error _ => false

instance {ε α : Type} [DecidableEq ε] [DecidableEq α] : DecidableEq (Except ε α) :=
  fun x y =>
    match x, y with
    | .ok a, .ok b =>
      if h : a = b then isTrue (by rw [h]) else isFalse (by intro hh; cases hh; exact h rfl)
    | .error a, .error b =>
      if h : a = b then isTrue (by rw [h]) else isFalse (by intro hh; cases hh; exact h rfl)
    | .ok _, .error _ => isFalse (by intro hh; cases hh)
    | .error _, .ok _ => isFalse (by intro hh; cases hh)

/-! ## Helper lemmas -/

/-- `normalizeAuthError` always lands on one of the eight fixed
code/message pairs. -/
lemma normalizeAuthError_cases (e : BackendError) :
    normalizeAuthError e = ⟨.invalid_email, "Please enter a valid email address."⟩ ∨
    normalizeAuthError e = ⟨.invalid_password, "Password must be at least 6 characters long."⟩ ∨
    normalizeAuthError e = ⟨.email_taken, "An account with this email already exists."⟩ ∨
    normalizeAuthError e = ⟨.user_not_found, "No account found with this email."⟩ ∨
    normalizeAuthError e = ⟨.wrong_password, "Incorrect email or password."⟩ ∨
    normalizeAuthError e = ⟨.too_many_requests, "Too many attempts. Please wait a moment and try again."⟩ ∨
    normalizeAuthError e = ⟨.network_error, "Unable to connect. Please check your internet connection."⟩ ∨
    normalizeAuthError e = ⟨.unknown_error, "Something went wrong. Please try again."⟩ := by
  cases h1 : authEmailPhrase (strLower e.message) <;>
    cases h2 : authPasswordPhrase (strLower e.message) <;>
    cases h3 : authTakenPhrase (strLower e.message) <;>
    cases h4 : authMissingUserPhrase (strLower e.message) <;>
    cases h5 : authBadCredsPhrase (strLower e.message) <;>
    cases h6 : authRateCond e <;>
    cases h7 : authNetworkPhrase (strLower e.message) <;>
    simp [normalizeAuthError, h1, h2, h3, h4, h5, h6, h7]

/-! ## Claim theorems -/

/-- Claim C4: `normalizeAuthError` classifies every backend auth error by
ordered, case-insensitive substring matching into exactly one code of the
closed taxonomy, in the order invalid-email, invalid-password, email-taken,
user-not-found, wrong-password, rate-limit-or-429, network, and otherwise
falls through to `unknown_error` whose message is the fixed fallback text
independent of the backend text; in particular "User already registered" and
"duplicate key value violates unique constraint" map to `email_taken`,
"Invalid login credentials" to `wrong_password`, and "Rate limit exceeded"
with status 429 to `too_many_requests`. -/
theorem auth_error_taxonomy :
    (∀ e : BackendError,
      (authEmailPhrase (strLower e.message) = true →
        normalizeAuthError e = ⟨.invalid_email, "Please enter a valid email address."⟩) ∧
      (authEmailPhrase (strLower e.message) = false →
        authPasswordPhrase (strLower e.message) = true →
        normalizeAuthError e = ⟨.invalid_password, "Password must be at least 6 characters long."⟩) ∧
      (authEmailPhrase (strLower e.message) = false →
        authPasswordPhrase (strLower e.message) = false →
        authTakenPhrase (strLower e.message) = true →
        normalizeAuthError e = ⟨.email_taken, "An account with this email already exists."⟩) ∧
      (authEmailPhrase (strLower e.message) = false →
        authPasswordPhrase (strLower e.message) = false →
        authTakenPhrase (strLower e.message) = false →
        authMissingUserPhrase (strLower e.message) = true →
        normalizeAuthError e = ⟨.user_not_found, "No account found with this email."⟩) ∧
      (authEmailPhrase (strLower e.message) = false →
        authPasswordPhrase (strLower e.message) = false →
        authTakenPhrase (strLower e.message) = false →
        authMissingUserPhrase (strLower e.message) = false →
        authBadCredsPhrase (strLower e.message) = true →
        normalizeAuthError e = ⟨.wrong_password, "Incorrect email or password."⟩) ∧
      (authEmailPhrase (strLower e.message) = false →
        authPasswordPhrase (strLower e.message) = false →
        authTakenPhrase (strLower e.message) = false →
        authMissingUserPhrase (strLower e.message) = false →
        authBadCredsPhrase (strLower e.message) = false →
        authRateCond e = true →
        normalizeAuthError e = ⟨.too_many_requests, "Too many attempts. Please wait a moment and try again."⟩) ∧
      (authEmailPhrase (strLower e.message) = false →
        authPasswordPhrase (strLower e.message) = false →
        authTakenPhrase (strLower e.message) = false →
        authMissingUserPhrase (strLower e.message) = false →
        authBadCredsPhrase (strLower e.message) = false →
        authRateCond e = false →
        authNetworkPhrase (strLower e.message) = true →
        normalizeAuthError e = ⟨.network_error, "Unable to connect. Please check your internet connection."⟩) ∧
      (authEmailPhrase (strLower e.message) = false →
        authPasswordPhrase (strLower e.message) = false →
        authTakenPhrase (strLower e.message) = false →
        authMissingUserPhrase (strLower e.message) = false →
        authBadCredsPhrase (strLower e.message) = false →
        authRateCond e = false →
        authNetworkPhrase (strLower e.message) = false →
        normalizeAuthError e = ⟨.unknown_error, "Something went wrong. Please try again."⟩)) ∧
    (∀ e : BackendError, (normalizeAuthError e).code = .unknown_error →
      (normalizeAuthError e).message = "Something went wrong. Please try again.") ∧
    normalizeAuthError ⟨"User already registered", none⟩ =
      ⟨.email_taken, "An account with this email already exists."⟩ ∧
    normalizeAuthError ⟨"duplicate key value violates unique constraint", none⟩ =
      ⟨.email_taken, "An account with this email already exists."⟩ ∧
    normalizeAuthError ⟨"Invalid login credentials", none⟩ =
      ⟨.wrong_password, "Incorrect email or password."⟩ ∧
    normalizeAuthError ⟨"Rate limit exceeded", some 429⟩ =
      ⟨.too_many_requests, "Too many attempts. Please wait a moment and try again."⟩ := by
  refine ⟨fun e => ⟨?_, ?_, ?_, ?_, ?_, ?_, ?_, ?_⟩, ?_, by decide, by decide, by decide, by decide⟩
  · intro h1; simp [normalizeAuthError, h1]
  · intro h1 h2; simp [normalizeAuthError, h1, h2]
  · intro h1 h2 h3; simp [normalizeAuthError, h1, h2, h3]
  · intro h1 h2 h3 h4; simp [normalizeAuthError, h1, h2, h3, h4]
  · intro h1 h2 h3 h4 h5; simp [normalizeAuthError, h1, h2, h3, h4, h5]
  · intro h1 h2 h3 h4 h5 h6; simp [normalizeAuthError, h1, h2, h3, h4, h5, h6]
  · intro h1 h2 h3 h4 h5 h6 h7; simp [normalizeAuthError, h1, h2, h3, h4, h5, h6, h7]
  · intro h1 h2 h3 h4 h5 h6 h7; simp [normalizeAuthError, h1, h2, h3, h4, h5, h6, h7]
  · intro e h
    rcases normalizeAuthError_cases e with hc | hc | hc | hc | hc | hc | hc | hc <;>
      rw [hc] at h ⊢ <;> simp_all

/-- Claim C4 witness: the taxonomy theorem applied at concrete backend
errors, one per matching tier and one for the fixed fallback. -/
theorem auth_error_taxonomy_witness :
    normalizeAuthError ⟨"Invalid email format", none⟩ =
      ⟨.invalid_email, "Please enter a valid email address."⟩ ∧
    normalizeAuthError ⟨"Password should be at least 6 characters", none⟩ =
      ⟨.invalid_password, "Password must be at least 6 characters long."⟩ ∧
    normalizeAuthError ⟨"Some weird error we never seen", none⟩ =
      ⟨.unknown_error, "Something went wrong. Please try again."⟩ ∧
    (normalizeAuthError ⟨"Some weird error we never seen", none⟩).message =
      "Something went wrong. Please try again." :=
  ⟨(auth_error_taxonomy.1 ⟨"Invalid email format", none⟩).1
      (by decide),
   (auth_error_taxonomy.1 ⟨"Password should be at least 6 characters", none⟩).2.1
      (by decide) (by decide),
   (auth_error_taxonomy.1 ⟨"Some weird error we never seen", none⟩).2.2.2.2.2.2.2
      (by decide) (by decide) (by decide) (by decide) (by decide) (by decide) (by decide),
   auth_error_taxonomy.2.1 ⟨"Some weird error we never seen", none⟩ (by decide)⟩

/-- Claim C5: `normalizeArticleError` classifies every backend article error
by ordered, case-insensitive matching into exactly one of permission_denied,
not_found, network_error, unknown_error: permission/RLS phrases or the RLS
backend codes first, then not-found phrases or the no-rows code, then
network/fetch/connection/timeout phrases, else unknown_error; in particular a
message containing "permission denied" or code 42501 yields
permission_denied, and a timeout message reaching the network tier yields
network_error. -/
theorem article_error_taxonomy :
    (∀ e : DbError,
      (artPermissionCond e = true →
        normalizeArticleError e =
          ⟨.permission_denied, "You do not have permission to view these articles."⟩) ∧
      (artPermissionCond e = false → artMissingCond e = true →
        normalizeArticleError e = ⟨.not_found, "Article not found."⟩) ∧
      (artPermissionCond e = false → artMissingCond e = false →
        artNetworkPhrase (strLower e.message) = true →
        normalizeArticleError e =
          ⟨.network_error, "Unable to load articles. Please check your internet connection."⟩) ∧
      (artPermissionCond e = false → artMissingCond e = false →
        artNetworkPhrase (strLower e.message) = false →
        normalizeArticleError e =
          ⟨.unknown_error, "Unable to load articles. Please try again."⟩)) ∧
    (∀ msg code, strIncludes (strLower msg) "permission denied" = true →
      normalizeArticleError ⟨msg, code⟩ =
        ⟨.permission_denied, "You do not have permission to view these articles."⟩) ∧
    (∀ msg, normalizeArticleError ⟨msg, some "42501"⟩ =
      ⟨.permission_denied, "You do not have permission to view these articles."⟩) ∧
    normalizeArticleError ⟨"Request timeout after 30000ms", none⟩ =
      ⟨.network_error, "Unable to load articles. Please check your internet connection."⟩ := by
  refine ⟨fun e => ⟨?_, ?_, ?_, ?_⟩, ?_, ?_, by decide⟩
  · intro h1; simp [normalizeArticleError, h1]
  · intro h1 h2; simp [normalizeArticleError, h1, h2]
  · intro h1 h2 h3; simp [normalizeArticleError, h1, h2, h3]
  · intro h1 h2 h3; simp [normalizeArticleError, h1, h2, h3]
  · intro msg code h
    have h1 : artPermissionCond ⟨msg, code⟩ = true := by
      simp [artPermissionCond, h]
    simp [normalizeArticleError, h1]
  · intro msg
    have h1 : artPermissionCond ⟨msg, some "42501"⟩ = true := by
      unfold artPermissionCond
      have h2 : (strLower ((some "42501").getD "") == "42501") = true := by decide
      rw [h2]
      simp
    simp [normalizeArticleError, h1]

/-- Claim C5 witness: the taxonomy theorem applied at concrete backend
errors from the repository's own tests. -/
theorem article_error_taxonomy_witness :
    normalizeArticleError ⟨"permission denied for table articles", some "42501"⟩ =
      ⟨.permission_denied, "You do not have permission to view these articles."⟩ ∧
    normalizeArticleError ⟨"Row not found", none⟩ = ⟨.not_found, "Article not found."⟩ ∧
    normalizeArticleError ⟨"Failed to fetch: network error", none⟩ =
      ⟨.network_error, "Unable to load articles. Please check your internet connection."⟩ ∧
    normalizeArticleError ⟨"Something unexpected happened", none⟩ =
      ⟨.unknown_error, "Unable to load articles. Please try again."⟩ :=
  ⟨(article_error_taxonomy.1 ⟨"permission denied for table articles", some "42501"⟩).1
      (by decide),
   (article_error_taxonomy.1 ⟨"Row not found", none⟩).2.1 (by decide) (by decide),
   (article_error_taxonomy.1 ⟨"Failed to fetch: network error", none⟩).2.2.1
      (by decide) (by decide) (by decide),
   (article_error_taxonomy.1 ⟨"Something unexpected happened", none⟩).2.2.2
      (by decide) (by decide) (by decide)⟩

/-- Claim C6: when the backend reports an error whose text contains "session"
or "not authenticated" (case-insensitively), `getCurrentUser` resolves
successfully with a null user instead of an error; any other backend error is
normalized, and in particular "Network request failed" becomes
`network_error`. -/
theorem getCurrentUser_session_rule :
    (∀ (u : Option User) (err : BackendError),
      (strIncludes (strLower err.message) "session" ||
        strIncludes (strLower err.message) "not authenticated") = true →
      getCurrentUser (.ok ⟨u, some err⟩) = .ok ⟨some ⟨none⟩, none⟩) ∧
    (∀ (u : Option User) (err : BackendError),
      (strIncludes (strLower err.message) "session" ||
        strIncludes (strLower err.message) "not authenticated") = false →
      getCurrentUser (.ok ⟨u, some err⟩) = .ok ⟨none, some (normalizeAuthError err)⟩) ∧
    getCurrentUser (.ok ⟨none, some ⟨"Network request failed", none⟩⟩) =
      .ok ⟨none, some ⟨.network_error, "Unable to connect. Please check your internet connection."⟩⟩ := by
  refine ⟨?_, ?_, by rfl⟩
  · intro u err h; simp [getCurrentUser, h]
  · intro u err h; simp [getCurrentUser, h]

/-- Claim C6 witness: the session rule applied at the backend errors used by
the repository's own tests, plus one normalized error. -/
theorem getCurrentUser_session_rule_witness :
    getCurrentUser (.ok ⟨none, some ⟨"Auth session missing!", none⟩⟩) =
      .ok ⟨some ⟨none⟩, none⟩ ∧
    getCurrentUser (.ok ⟨none, some ⟨"User not authenticated", none⟩⟩) =
      .ok ⟨some ⟨none⟩, none⟩ ∧
    getCurrentUser (.ok ⟨none, some ⟨"Something unexpected happened", none⟩⟩) =
      .ok ⟨none, some (normalizeAuthError ⟨"Something unexpected happened", none⟩)⟩ :=
  ⟨getCurrentUser_session_rule.1 none ⟨"Auth session missing!", none⟩ (by decide),
   getCurrentUser_session_rule.1 none ⟨"User not authenticated", none⟩ (by decide),
   getCurrentUser_session_rule.2.1 none ⟨"Something unexpected happened", none⟩ (by decide)⟩

/-- Claim C10: in `getCurrentUser` the session check precedes all error
normalization: any backend error whose message contains "session" or
"not authenticated" anywhere (case-insensitively) resolves as success with a
null user, even when the message also matches another taxonomy rule — e.g.
"Network error: session expired" resolves as success although its text
matches the network rule of the taxonomy. -/
theorem getCurrentUser_session_precedence :
    (∀ (u : Option User) (err : BackendError),
      strIncludes (strLower err.message) "session" = true →
      getCurrentUser (.ok ⟨u, some err⟩) = .ok ⟨some ⟨none⟩, none⟩) ∧
    (∀ (u : Option User) (err : BackendError),
      strIncludes (strLower err.message) "not authenticated" = true →
      getCurrentUser (.ok ⟨u, some err⟩) = .ok ⟨some ⟨none⟩, none⟩) ∧
    getCurrentUser (.ok ⟨none, some ⟨"Network error: session expired", none⟩⟩) =
      .ok ⟨some ⟨none⟩, none⟩ ∧
    (normalizeAuthError ⟨"Network error: session expired", none⟩).code = .network_error := by
  refine ⟨?_, ?_, by rfl, by decide⟩
  · intro u err h; simp [getCurrentUser, h]
  · intro u err h; simp [getCurrentUser, h]

/-- Claim C10 witness: the precedence theorem applied at a message matching
both the session check and the network rule. -/
theorem getCurrentUser_session_precedence_witness :
    getCurrentUser (.ok ⟨some ⟨"u1"⟩, some ⟨"Network error: SESSION expired", none⟩⟩) =
      .ok ⟨some ⟨none⟩, none⟩ :=
  getCurrentUser_session_precedence.1 (some ⟨"u1"⟩) ⟨"Network error: SESSION expired", none⟩
    (by decide)

/-- Claim C7: `fetchArticles` queries the `articles` table with projection
"id, title, summary, tags, external_url, created_at" ordered by `created_at`
descending, and depends on the backend only through that query; a null row
set yields a success with the empty list; each row maps 1:1 into `Article`
with `tags` defaulting to `[]` when null and `external_url` renamed to
`externalUrl` with its value unchanged. -/
theorem fetch_articles_contract :
    articlesQuery.table = "articles" ∧
    articlesQuery.sel = "id, title, summary, tags, external_url, created_at" ∧
    articlesQuery.orderBy = "created_at" ∧
    articlesQuery.ascending = false ∧
    (∀ b1 b2, b1 articlesQuery = b2 articlesQuery → fetchArticles b1 = fetchArticles b2) ∧
    (∀ b, b articlesQuery = .ok ⟨none, none⟩ → fetchArticles b = .ok ⟨some [], none⟩) ∧
    (∀ b rows, b articlesQuery = .ok ⟨some rows, none⟩ →
      fetchArticles b = .ok ⟨some (rows.map mapRow), none⟩) ∧
    (∀ row : ArticleRow, row.tags = none → (mapRow row).tags = []) ∧
    (∀ row : ArticleRow, (mapRow row).id = row.id ∧ (mapRow row).title = row.title ∧
      (mapRow row).summary = row.summary ∧ (mapRow row).externalUrl = row.external_url ∧
      (mapRow row).createdAt = row.created_at) ∧
    (∀ (row : ArticleRow) (ts : List String), row.tags = some ts → (mapRow row).tags = ts) := by
  refine ⟨rfl, rfl, rfl, rfl, ?_, ?_, ?_, ?_, ?_, ?_⟩
  · intro b1 b2 h; unfold fetchArticles; rw [h]
  · intro b h; simp [fetchArticles, h]
  · intro b rows h; simp [fetchArticles, h]
  · intro row h; simp [mapRow, h]
  · intro row; exact ⟨rfl, rfl, rfl, rfl, rfl⟩
  · intro row ts h; simp [mapRow, h]

/-- Claim C7 witness: the contract applied at a null row set and at a
one-row set whose `tags` is null and whose `external_url` is "https://x". -/
theorem fetch_articles_contract_witness :
    fetchArticles (fun _ => .ok ⟨none, none⟩) = .ok ⟨some [], none⟩ ∧
    fetchArticles (fun _ => .ok ⟨some [⟨"1", "T", "S", none, "https://x", "2024"⟩], none⟩) =
      .ok ⟨some [⟨"1", "T", "S", [], "https://x", "2024"⟩], none⟩ :=
  ⟨fetch_articles_contract.2.2.2.2.2.1 (fun _ => .ok ⟨none, none⟩) rfl,
   by
    have h := fetch_articles_contract.2.2.2.2.2.2.1
      (fun _ => .ok ⟨some [⟨"1", "T", "S", none, "https://x", "2024"⟩], none⟩)
      [⟨"1", "T", "S", none, "https://x", "2024"⟩] rfl
    simpa [mapRow] using h⟩

/-- Claim C2: `fetchArticleById` returns `Result<Article, ArticleError>`,
propagating the same error-normalization (`normalizeArticleError`) and the
same row mapping (`mapRow`) as `fetchArticles` on a single-row lookup, and
returns a `not_found` error when zero rows match the given id. -/
theorem fetch_article_by_id_contract :
    (∀ b aid m, b aid = .error m → fetchArticleById b aid = .error m) ∧
    (∀ b aid (d : Option (List ArticleRow)) err, b aid = .ok ⟨d, some err⟩ →
      fetchArticleById b aid = .ok ⟨none, some (normalizeArticleError err)⟩) ∧
    (∀ b aid, b aid = .ok ⟨some [], none⟩ →
      fetchArticleById b aid = .ok ⟨none, some ⟨.not_found, "Article not found."⟩⟩) ∧
    (∀ b aid, b aid = .ok ⟨none, none⟩ →
      fetchArticleById b aid = .ok ⟨none, some ⟨.not_found, "Article not found."⟩⟩) ∧
    (∀ b aid row rest, b aid = .ok ⟨some (row :: rest), none⟩ →
      fetchArticleById b aid = .ok ⟨some (mapRow row), none⟩) := by
  refine ⟨?_, ?_, ?_, ?_, ?_⟩
  · intro b aid m h; simp [fetchArticleById, h]
  · intro b aid d err h; simp [fetchArticleById, h]
  · intro b aid h; simp [fetchArticleById, h]
  · intro b aid h; simp [fetchArticleById, h]
  · intro b aid row rest h; simp [fetchArticleById, h]

/-- Claim C2 witness: the single-row contract applied at a zero-row lookup
and at a one-row lookup. -/
theorem fetch_article_by_id_contract_witness :
    fetchArticleById (fun _ => .ok ⟨some [], none⟩) "missing" =
      .ok ⟨none, some ⟨.not_found, "Article not found."⟩⟩ ∧
    fetchArticleById (fun _ => .ok ⟨some [⟨"7", "T", "S", some ["a"], "https://x", "2024"⟩], none⟩)
        "7" =
      .ok ⟨some ⟨"7", "T", "S", ["a"], "https://x", "2024"⟩, none⟩ :=
  ⟨fetch_article_by_id_contract.2.2.1 (fun _ => .ok ⟨some [], none⟩) "missing" rfl,
   by
    have h := fetch_article_by_id_contract.2.2.2.2
      (fun _ => .ok ⟨some [⟨"7", "T", "S", some ["a"], "https://x", "2024"⟩], none⟩)
      "7" ⟨"7", "T", "S", some ["a"], "https://x", "2024"⟩ [] rfl
    simpa [mapRow] using h⟩

/-- Claim C8: `signUp` and `signIn` reject an empty email or one without "@"
with `invalid_email` and an empty backend call list (the collaborator is
never invoked); whenever either operation does invoke the collaborator, the
email it sends is the input trimmed of surrounding whitespace and
lower-cased — "  TEST@EXAMPLE.COM  " reaches the backend as
"test@example.com". -/
theorem email_validation_contract :
    (∀ b email pw, (email == "" || !(strIncludes email "@")) = true →
      signUp b email pw =
        (.ok ⟨none, some ⟨.invalid_email, "Please enter a valid email address."⟩⟩, [])) ∧
    (∀ b email pw, (email == "" || !(strIncludes email "@")) = true →
      signIn b email pw =
        (.ok ⟨none, some ⟨.invalid_email, "Please enter a valid email address."⟩⟩, [])) ∧
    (∀ b email pw c, c ∈ (signUp b email pw).2 →
      c.email = strLower (strTrim email) ∧ c.password = pw) ∧
    (∀ b email pw c, c ∈ (signIn b email pw).2 →
      c.email = strLower (strTrim email) ∧ c.password = pw) ∧
    strLower (strTrim "  TEST@EXAMPLE.COM  ") = "test@example.com" := by
  refine ⟨?_, ?_, ?_, ?_, by decide⟩
  · intro b email pw h; simp [signUp, h]
  · intro b email pw h; simp [signIn, h]
  · intro b email pw c hc
    unfold signUp at hc
    split at hc
    · simp at hc
    · split at hc
      · simp at hc
      · cases hb : b ⟨strLower (strTrim email), pw⟩ <;> simp [hb] at hc
        · exact ⟨by rw [hc], by rw [hc]⟩
        · rename_i resp
          cases hr : resp.error <;> simp [hr] at hc
          · cases hu : resp.user <;> simp [hu] at hc <;>
              exact ⟨by rw [hc], by rw [hc]⟩
          · exact ⟨by rw [hc], by rw [hc]⟩
  · intro b email pw c hc
    unfold signIn at hc
    split at hc
    · simp at hc
    · split at hc
      · simp at hc
      · cases hb : b ⟨strLower (strTrim email), pw⟩ <;> simp [hb] at hc
        · exact ⟨by rw [hc], by rw [hc]⟩
        · rename_i resp
          cases hr : resp.error <;> simp [hr] at hc
          · cases hu : resp.user <;> simp [hu] at hc <;>
              exact ⟨by rw [hc], by rw [hc]⟩
          · exact ⟨by rw [hc], by rw [hc]⟩

/-- Claim C8 witness: the contract applied at an email without "@" (signUp),
an empty email (signIn), and at the concrete normalization example, where the
backend call list is computed explicitly. -/
theorem email_validation_contract_witness :
    signUp (fun _ => .ok ⟨some ⟨"u1"⟩, none⟩) "notanemail" "password123" =
      (.ok ⟨none, some ⟨.invalid_email, "Please enter a valid email address."⟩⟩, []) ∧
    signIn (fun _ => .ok ⟨some ⟨"u1"⟩, none⟩) "" "password123" =
      (.ok ⟨none, some ⟨.invalid_email, "Please enter a valid email address."⟩⟩, []) ∧
    (Credentials.mk "test@example.com" "password123").email =
      strLower (strTrim "  TEST@EXAMPLE.COM  ") :=
  ⟨email_validation_contract.1 (fun _ => .ok ⟨some ⟨"u1"⟩, none⟩) "notanemail" "password123"
      (by decide),
   email_validation_contract.2.1 (fun _ => .ok ⟨some ⟨"u1"⟩, none⟩) "" "password123"
      (by decide),
   ((email_validation_contract.2.2.1 (fun _ => .ok ⟨some ⟨"u1"⟩, none⟩)
      "  TEST@EXAMPLE.COM  " "password123" ⟨"test@example.com", "password123"⟩
      (by decide)).1).symm⟩

/-- Claim C9: with a well-formed email, `signUp` rejects every password
shorter than 6 characters with `invalid_password` and its length-requirement
message, without calling the backend; `signIn` rejects only the empty
password, with its distinct "enter your password" message and no backend
call, and enforces no length minimum — any non-empty password reaches the
backend collaborator. -/
theorem password_rules_contract :
    (∀ b email pw, (email == "" || !(strIncludes email "@")) = false →
      pw.length < 6 →
      signUp b email pw =
        (.ok ⟨none, some ⟨.invalid_password, "Password must be at least 6 characters long."⟩⟩,
          [])) ∧
    (∀ b email, (email == "" || !(strIncludes email "@")) = false →
      signIn b email "" =
        (.ok ⟨none, some ⟨.invalid_password, "Please enter your password."⟩⟩, [])) ∧
    (∀ b email pw, (email == "" || !(strIncludes email "@")) = false → (pw == "") = false →
      (signIn b email pw).2 = [⟨strLower (strTrim email), pw⟩]) := by
  refine ⟨?_, ?_, ?_⟩
  · intro b email pw h1 h2
    have hb : (pw == "" || decide (pw.length < 6)) = true := by simp [h2]
    simp [signUp, h1, hb]
  · intro b email h1
    simp [signIn, h1]
  · intro b email pw h1 h2
    unfold signIn
    simp only [h1, h2, Bool.false_eq_true, if_false]
    cases hb : b ⟨strLower (strTrim email), pw⟩ <;> simp [hb]
    rename_i resp
    cases hr : resp.error <;> simp [hr]
    cases hu : resp.user <;> simp [hu]

/-- Claim C9 witness: the password rules applied at a 5-character signUp
password, an empty signIn password, and a 1-character signIn password that
reaches the backend. -/
theorem password_rules_contract_witness :
    signUp (fun _ => .ok ⟨some ⟨"u1"⟩, none⟩) "test@example.com" "12345" =
      (.ok ⟨none, some ⟨.invalid_password, "Password must be at least 6 characters long."⟩⟩,
        []) ∧
    signIn (fun _ => .ok ⟨some ⟨"u1"⟩, none⟩) "test@example.com" "" =
      (.ok ⟨none, some ⟨.invalid_password, "Please enter your password."⟩⟩, []) ∧
    (signIn (fun _ => .ok ⟨some ⟨"u1"⟩, none⟩) "test@example.com" "a").2 =
      [⟨"test@example.com", "a"⟩] :=
  ⟨password_rules_contract.1 (fun _ => .ok ⟨some ⟨"u1"⟩, none⟩) "test@example.com" "12345"
      (by decide) (by decide),
   password_rules_contract.2.1 (fun _ => .ok ⟨some ⟨"u1"⟩, none⟩) "test@example.com"
      (by decide),
   by
    have h := password_rules_contract.2.2 (fun _ => .ok ⟨some ⟨"u1"⟩, none⟩)
      "test@example.com" "a" (by decide) (by decide)
    simpa using h⟩

/-- Every `signUp` return is one of: a failure result, a success result, or a
propagated exception. -/
lemma signUp_outcomes (b : Credentials → Except String AuthApiResponse) (email pw : String) :
    (∃ e, (signUp b email pw).1 = .ok ⟨none, some e⟩) ∨
    (∃ d, (signUp b email pw).1 = .ok ⟨some d, none⟩) ∨
    (∃ m, (signUp b email pw).1 = .error m) := by
  unfold signUp
  split
  · exact .inl ⟨_, rfl⟩
  · split
    · exact .inl ⟨_, rfl⟩
    · cases hb : b ⟨strLower (strTrim email), pw⟩ <;> simp [hb]
      rename_i resp
      cases hr : resp.error <;> simp [hr]
      cases hu : resp.user <;> simp [hu]

/-- Every `signIn` return is one of: a failure result, a success result, or a
propagated exception. -/
lemma signIn_outcomes (b : Credentials → Except String AuthApiResponse) (email pw : String) :
    (∃ e, (signIn b email pw).1 = .ok ⟨none, some e⟩) ∨
    (∃ d, (signIn b email pw).1 = .ok ⟨some d, none⟩) ∨
    (∃ m, (signIn b email pw).1 = .error m) := by
  unfold signIn
  split
  · exact .inl ⟨_, rfl⟩
  · split
    · exact .inl ⟨_, rfl⟩
    · cases hb : b ⟨strLower (strTrim email), pw⟩ <;> simp [hb]
      rename_i resp
      cases hr : resp.error <;> simp [hr]
      cases hu : resp.user <;> simp [hu]

/-- Every `signOut` return is one of: the success result carrying the unit
payload, a failure result, or a propagated exception. -/
lemma signOut_outcomes (b : Except String SignOutApiResponse) :
    signOut b = .ok ⟨some (), none⟩ ∨
    (∃ e, signOut b = .ok ⟨none, some e⟩) ∨
    (∃ m, signOut b = .error m) := by
  unfold signOut
  cases b <;> simp
  rename_i resp
  cases hr : resp.error <;> simp [hr]

/-- Every `getCurrentUser` return is one of: a success result, a failure
result, or a propagated exception. -/
lemma getCurrentUser_outcomes (b : Except String GetUserApiResponse) :
    (∃ cu, getCurrentUser b = .ok ⟨some cu, none⟩) ∨
    (∃ e, getCurrentUser b = .ok ⟨none, some e⟩) ∨
    (∃ m, getCurrentUser b = .error m) := by
  unfold getCurrentUser
  cases b <;> simp
  rename_i resp
  cases hr : resp.error <;> simp [hr]
  split <;> simp

/-- Every `fetchArticles` return is one of: a success result, a failure
result, or a propagated exception. -/
lemma fetchArticles_outcomes (b : ArticlesQuery → Except String DbResponse) :
    (∃ arts, fetchArticles b = .ok ⟨some arts, none⟩) ∨
    (∃ e, fetchArticles b = .ok ⟨none, some e⟩) ∨
    (∃ m, fetchArticles b = .error m) := by
  unfold fetchArticles
  cases hb : b articlesQuery <;> simp [hb]
  rename_i r
  cases hr : r.error <;> simp [hr]

/-- Claim C3: whenever a gateway operation (signUp, signIn, signOut,
getCurrentUser, fetchArticles) returns a result object, exactly one of its
data/error slots is populated: on failure data is null and error is a
non-null error object, on success error is null and data carries the
declared success payload (for signOut the unit payload of its declared
`null` success type) — never both, never neither. -/
theorem result_slots_exclusive :
    (∀ b email pw r, (signUp b email pw).1 = .ok r → exactlyOne r.data r.error) ∧
    (∀ b email pw r, (signIn b email pw).1 = .ok r → exactlyOne r.data r.error) ∧
    (∀ b r, signOut b = .ok r → exactlyOne r.data r.error) ∧
    (∀ b r, getCurrentUser b = .ok r → exactlyOne r.data r.error) ∧
    (∀ b r, fetchArticles b = .ok r → exactlyOne r.data r.error) := by
  refine ⟨?_, ?_, ?_, ?_, ?_⟩
  · intro b email pw r h
    rcases signUp_outcomes b email pw with ⟨e, he⟩ | ⟨d, hd⟩ | ⟨m, hm⟩
    · rw [h] at he; injection he with h2; rw [h2]; simp [exactlyOne]
    · rw [h] at hd; injection hd with h2; rw [h2]; simp [exactlyOne]
    · rw [h] at hm; cases hm
  · intro b email pw r h
    rcases signIn_outcomes b email pw with ⟨e, he⟩ | ⟨d, hd⟩ | ⟨m, hm⟩
    · rw [h] at he; injection he with h2; rw [h2]; simp [exactlyOne]
    · rw [h] at hd; injection hd with h2; rw [h2]; simp [exactlyOne]
    · rw [h] at hm; cases hm
  · intro b r h
    rcases signOut_outcomes b with hs | ⟨e, he⟩ | ⟨m, hm⟩
    · rw [h] at hs; injection hs with h2; rw [h2]; simp [exactlyOne]
    · rw [h] at he; injection he with h2; rw [h2]; simp [exactlyOne]
    · rw [h] at hm; cases hm
  · intro b r h
    rcases getCurrentUser_outcomes b with ⟨cu, hc⟩ | ⟨e, he⟩ | ⟨m, hm⟩
    · rw [h] at hc; injection hc with h2; rw [h2]; simp [exactlyOne]
    · rw [h] at he; injection he with h2; rw [h2]; simp [exactlyOne]
    · rw [h] at hm; cases hm
  · intro b r h
    rcases fetchArticles_outcomes b with ⟨arts, ha⟩ | ⟨e, he⟩ | ⟨m, hm⟩
    · rw [h] at ha; injection ha with h2; rw [h2]; simp [exactlyOne]
    · rw [h] at he; injection he with h2; rw [h2]; simp [exactlyOne]
    · rw [h] at hm; cases hm

/-- Claim C3 witness: exclusivity obtained from the theorem at one concrete
success and one concrete failure per kind of operation. -/
theorem result_slots_exclusive_witness :
    exactlyOne (some (UserData.mk ⟨"u1"⟩)) (none : Option AuthError) ∧
    exactlyOne (none : Option UserData)
      (some (AuthError.mk .invalid_email "Please enter a valid email address.")) ∧
    exactlyOne (some ()) (none : Option AuthError) ∧
    exactlyOne (some (CurrentUser.mk none)) (none : Option AuthError) ∧
    exactlyOne (some ([] : List Article)) (none : Option ArticleError) :=
  ⟨result_slots_exclusive.1 (fun _ => .ok ⟨some ⟨"u1"⟩, none⟩) "test@example.com"
      "password123" ⟨some ⟨⟨"u1"⟩⟩, none⟩ (by rfl),
   result_slots_exclusive.2.1 (fun _ => .ok ⟨some ⟨"u1"⟩, none⟩) "" "x"
      ⟨none, some ⟨.invalid_email, "Please enter a valid email address."⟩⟩ (by rfl),
   result_slots_exclusive.2.2.1 (.ok ⟨none⟩) ⟨some (), none⟩ (by rfl),
   result_slots_exclusive.2.2.2.1 (.ok ⟨none, some ⟨"Auth session missing!", none⟩⟩)
      ⟨some ⟨none⟩, none⟩ (by rfl),
   result_slots_exclusive.2.2.2.2 (fun _ => .ok ⟨some [], none⟩) ⟨some [], none⟩ (by rfl)⟩

/-- Claim C1 counterexample: with a backend whose call itself throws
("Network request failed"), `signUp` (at valid inputs) and `fetchArticles` do
not return a Result carrying `network_error` — they propagate the exception
to the caller. -/
theorem gateway_never_raises_cex :
    (signUp (fun _ => Except.error "Network request failed") "test@example.com"
        "password123").1 = Except.error "Network request failed" ∧
    fetchArticles (fun _ => Except.error "Network request failed") =
      Except.error "Network request failed" ∧
    fetchArticles (fun _ => Except.error "Network request failed") ≠
      Except.ok ⟨none, some ⟨.network_error,
        "Unable to load articles. Please check your internet connection."⟩⟩ :=
  ⟨rfl, rfl, by decide⟩

/-- Claim C1 (amended): no gateway operation catches a thrown backend
exception — when the collaborator call itself throws, the operation
propagates that same exception unchanged to its caller (the calling screens
catch it); and when the collaborator returns a value (success or error
object), the operation returns a Result and never raises. -/
theorem gateway_exception_propagation :
    (∀ b email pw m, (signUp b email pw).1 = .error m →
      b ⟨strLower (strTrim email), pw⟩ = .error m) ∧
    (∀ b email pw, (∀ c, exceptOk (b c) = true) → exceptOk (signUp b email pw).1 = true) ∧
    (∀ b email pw m, (signIn b email pw).1 = .error m →
      b ⟨strLower (strTrim email), pw⟩ = .error m) ∧
    (∀ b email pw, (∀ c, exceptOk (b c) = true) → exceptOk (signIn b email pw).1 = true) ∧
    (∀ b m, signOut b = .error m → b = .error m) ∧
    (∀ resp, exceptOk (signOut (.ok resp)) = true) ∧
    (∀ b m, getCurrentUser b = .error m → b = .error m) ∧
    (∀ resp, exceptOk (getCurrentUser (.ok resp)) = true) ∧
    (∀ b m, fetchArticles b = .error m → b articlesQuery = .error m) ∧
    (∀ b, exceptOk (b articlesQuery) = true → exceptOk (fetchArticles b) = true) := by
  refine ⟨?_, ?_, ?_, ?_, ?_, ?_, ?_, ?_, ?_, ?_⟩
  · intro b email pw m h
    unfold signUp at h
    split at h
    · simp at h
    · split at h
      · simp at h
      · cases hb : b ⟨strLower (strTrim email), pw⟩ <;> simp [hb] at h
        · simp [hb, h]
        · rename_i resp
          cases hr : resp.error <;> simp [hr] at h
          cases hu : resp.user <;> simp [hu] at h
  · intro b email pw hall
    unfold signUp
    split
    · simp [exceptOk]
    · split
      · simp [exceptOk]
      · have hc := hall ⟨strLower (strTrim email), pw⟩
        cases hb : b ⟨strLower (strTrim email), pw⟩ <;> simp [hb]
        · rw [hb] at hc; simp [exceptOk] at hc
        · rename_i resp
          cases hr : resp.error <;> simp [hr, exceptOk]
          cases hu : resp.user <;> simp [hu, exceptOk]
  · intro b email pw m h
    unfold signIn at h
    split at h
    · simp at h
    · split at h
      · simp at h
      · cases hb : b ⟨strLower (strTrim email), pw⟩ <;> simp [hb] at h
        · simp [hb, h]
        · rename_i resp
          cases hr : resp.error <;> simp [hr] at h
          cases hu : resp.user <;> simp [hu] at h
  · intro b email pw hall
    unfold signIn
    split
    · simp [exceptOk]
    · split
      · simp [exceptOk]
      · have hc := hall ⟨strLower (strTrim email), pw⟩
        cases hb : b ⟨strLower (strTrim email), pw⟩ <;> simp [hb]
        · rw [hb] at hc; simp [exceptOk] at hc
        · rename_i resp
          cases hr : resp.error <;> simp [hr, exceptOk]
          cases hu : resp.user <;> simp [hu, exceptOk]
  · intro b m h
    unfold signOut at h
    cases b <;> simp at h
    · simp [h]
    · rename_i resp
      cases hr : resp.error <;> simp [hr] at h
  · intro resp
    unfold signOut
    cases hr : resp.error <;> simp [hr, exceptOk]
  · intro b m h
    unfold getCurrentUser at h
    cases b <;> simp at h
    · simp [h]
    · rename_i resp
      cases hr : resp.error <;> simp [hr] at h
      split at h <;> simp at h
  · intro resp
    unfold getCurrentUser
    cases hr : resp.error
    · simp [hr, exceptOk]
    · rename_i err
      simp only [hr]
      by_cases hc : (strIncludes (strLower err.message) "session" ||
          strIncludes (strLower err.message) "not authenticated") = true
      · simp [hc, exceptOk]
      · simp [hc, exceptOk]
  · intro b m h
    unfold fetchArticles at h
    cases hb : b articlesQuery <;> simp [hb] at h
    · simp [hb, h]
    · rename_i r
      cases hr : r.error <;> simp [hr] at h
  · intro b hok
    unfold fetchArticles
    cases hb : b articlesQuery <;> simp [hb]
    · rw [hb] at hok; simp [exceptOk] at hok
    · rename_i r
      cases hr : r.error <;> simp [hr, exceptOk]

/-- Claim C1 (amended) witness: propagation at a throwing backend and
no-throw at returning backends, obtained from the theorem at concrete
inputs. -/
theorem gateway_exception_propagation_witness :
    ((fun _ : Credentials => (Except.error "boom" : Except String AuthApiResponse))
        ⟨strLower (strTrim "test@example.com"), "password123"⟩ = Except.error "boom") ∧
    exceptOk (signUp (fun _ => .ok ⟨some ⟨"u1"⟩, none⟩) "test@example.com"
        "password123").1 = true ∧
    exceptOk (fetchArticles (fun _ => .ok ⟨some [], none⟩)) = true :=
  ⟨gateway_exception_propagation.1 (fun _ => .error "boom") "test@example.com" "password123"
      "boom" (by rfl),
   gateway_exception_propagation.2.1 (fun _ => .ok ⟨some ⟨"u1"⟩, none⟩) "test@example.com"
      "password123" (fun _ => rfl),
   gateway_exception_propagation.2.2.2.2.2.2.2.2.2 (fun _ => .ok ⟨some [], none⟩) (by rfl)⟩
